import Mathlib

/-!
# Verification of the anonymous-feedback bot core

Shallow embedding of the bot's source (`src/telegram.js`, `src/session.js`,
`src/index.js`, `src/formatter.js`, `src/config.js`) and proofs of the
specification claims about it.

`src/index.js` in this repository contains two concatenated revisions of the
webhook handler.  Definitions taken from the first revision carry the suffix
`V1`; definitions taken from the second revision carry the suffix `V2`.
Where the two revisions agree (the Telegram client, the session module, the
formatter) a single unsuffixed definition is used.

Timing model: the only delays in the code are the media-coalescer's fixed
1000 ms quiet-window sleep and the Telegram client's backoff sleeps.  Times
are modelled as natural-number milliseconds (`Date.now()` values); a handler
invocation is treated as instantaneous except for its explicit sleeps.
-/

/-! ## Outbound client (`src/telegram.js`, `apiRequest`)

One element of type `Attempt` describes what one `fetch` of the Telegram API
produces: a network error (the promise rejects), a response whose body fails
to parse as JSON, or a parsed response with an HTTP status, an optional
`parameters.retry_after` hint and, for 2xx responses, the Telegram-level `ok`
flag of the body.
-/

/-- Outcome of a single `fetch` against the Telegram API. -/
inductive Attempt where
  /-- `fetch` itself rejects (network error / timeout). -/
  | netErr : Attempt
  /-- A response arrives but `response.json()` throws. -/
  | badJson (status : Nat) : Attempt
  /-- A 2xx response with a parsed body; `bodyOk` is the body's `ok` field. -/
  | ok (bodyOk : Bool) (payload : String) : Attempt
  /-- A non-2xx response with a parsed body and optional `retry_after` hint
  (seconds); `none` models an absent `parameters.retry_after`. -/
  | err (status : Nat) (retryAfter : Option Nat) : Attempt
deriving DecidableEq

/-- Does this attempt take the `response.status === 429 &&
data.parameters?.retry_after` branch of `apiRequest`?  A `retry_after` of `0`
is falsy in JavaScript, so it does not take the branch. -/
def Attempt.is429Hint : Attempt → Bool
  | .err s (some ra) => decide (s = 429) && decide (ra ≠ 0)
  | _ => false

/-- The hinted wait in seconds (meaningful only when `is429Hint`). -/
def Attempt.hint : Attempt → Nat
  | .err _ (some ra) => ra
  | _ => 0

/-- Result of running `apiRequest`: `result = some payload` when the call
returned data, `none` when it threw; `fetches` counts the `fetch` calls made;
`sleeps` lists the waits (ms) performed between attempts, in order. -/
structure ApiRun where
  result : Option (Bool × String)
  fetches : Nat
  sleeps : List Nat
deriving DecidableEq

/-- The retry loop of `apiRequest` (`src/telegram.js` lines 35-90).
`attempt` is the loop counter, `retries` the ceiling (default 3), and `rs`
supplies the outcome of each successive `fetch`.

* loop exit (`attempt >= retries`) reaches the final
  `throw new Error('All retry attempts exhausted')`;
* a 2xx response returns its body;
* a 429 response with a truthy `retry_after` sleeps `retry_after * 1000` ms
  and `continue`s — which still runs the `attempt++` update of the `for` loop;
* every other outcome (network error, unparsable body, any other non-2xx
  status, 429 without a hint) is thrown inside the `try`, caught, and either
  rethrown (last iteration) or retried after a `2^attempt * 1000` ms sleep. -/
def apiGo (retries : Nat) : Nat → List Attempt → ApiRun
  | _, [] => ⟨none, 0, []⟩
  | attempt, r :: rest =>
    if attempt ≥ retries then ⟨none, 0, []⟩
    else
      match r with
      | .ok bodyOk payload => ⟨some (bodyOk, payload), 1, []⟩
      | other =>
        if other.is429Hint then
          let sub := apiGo retries (attempt + 1) rest
          ⟨sub.result, sub.fetches + 1, other.hint * 1000 :: sub.sleeps⟩
        else if attempt = retries - 1 then ⟨none, 1, []⟩
        else
          let sub := apiGo retries (attempt + 1) rest
          ⟨sub.result, sub.fetches + 1, 2 ^ attempt * 1000 :: sub.sleeps⟩

/-- `apiRequest(method, params, env, retries = 3)` driven by the stream `rs`
of fetch outcomes. -/
def apiRequest (rs : List Attempt) (retries : Nat := 3) : ApiRun :=
  apiGo retries 0 rs

/-- The `sendMessage` wrapper (`src/telegram.js` lines 109-134): it calls
`apiRequest`, returns `success: response.ok` on a returned body, and catches
any thrown error into `success: false`. -/
def sendMessageSuccess (rs : List Attempt) : Bool :=
  match (apiRequest rs).result with
  | some (bodyOk, _) => bodyOk
  | none => false

/-! ## Session store (`src/session.js`) -/

/-- A media item as stored in `session.mediaItems`:
`{type: 'photo'|'video'|'document', fileId}`. -/
inductive MediaType where
  | photo
  | video
  | document
deriving DecidableEq

/-- `{type, fileId}` element of `session.mediaItems`. -/
structure MediaItem where
  mtype : MediaType
  fileId : String
deriving DecidableEq

/-- The session object of `src/session.js` (fields of both revisions of
`index.js`; absent / `undefined` optional fields are `none`). -/
structure Session where
  step : String
  category : Option String
  topic : Option String
  messageText : Option String
  mediaItems : List MediaItem
  mediaGroupId : Option String
  waitingForMediaGroup : Bool
  sentiment : Option String
  createdAt : Nat
  lastMediaTimestamp : Option Nat
  confirmMessageId : Option Nat
  flowMessageId : Option Nat
deriving DecidableEq

/-- A partial update passed to `updateSession`: `none` means the field is not
named in the update object, `some v` means it is set to `v` (for nullable
fields `some none` sets the field to `null`). -/
structure SessionUpdates where
  step : Option String
  category : Option (Option String)
  topic : Option (Option String)
  messageText : Option (Option String)
  mediaItems : Option (List MediaItem)
  mediaGroupId : Option (Option String)
  waitingForMediaGroup : Option Bool
  sentiment : Option (Option String)
  createdAt : Option Nat
  lastMediaTimestamp : Option (Option Nat)
  confirmMessageId : Option (Option Nat)
  flowMessageId : Option (Option Nat)
deriving DecidableEq

/-- The empty update object `{}`. -/
def noUpdates : SessionUpdates :=
  ⟨none, none, none, none, none, none, none, none, none, none, none, none⟩

/-- `session = { ...session, ...updates }` (`src/session.js` line 92). -/
def applyUpdates (s : Session) (u : SessionUpdates) : Session where
  step := u.step.getD s.step
  category := u.category.getD s.category
  topic := u.topic.getD s.topic
  messageText := u.messageText.getD s.messageText
  mediaItems := u.mediaItems.getD s.mediaItems
  mediaGroupId := u.mediaGroupId.getD s.mediaGroupId
  waitingForMediaGroup := u.waitingForMediaGroup.getD s.waitingForMediaGroup
  sentiment := u.sentiment.getD s.sentiment
  createdAt := u.createdAt.getD s.createdAt
  lastMediaTimestamp := u.lastMediaTimestamp.getD s.lastMediaTimestamp
  confirmMessageId := u.confirmMessageId.getD s.confirmMessageId
  flowMessageId := u.flowMessageId.getD s.flowMessageId

/-- The fresh-session defaults created by `updateSession` when no session
exists (`src/session.js` lines 78-88). -/
def defaultSession (now : Nat) : Session where
  step := "category"
  category := none
  topic := none
  messageText := none
  mediaItems := []
  mediaGroupId := none
  waitingForMediaGroup := false
  sentiment := none
  createdAt := now
  lastMediaTimestamp := none
  confirmMessageId := none
  flowMessageId := none

/-- The session namespace of the KV store: entries `(key, session, ttl)`.
Test-log writes use a disjoint `test_log:` key namespace and are modelled as
effects instead (see `Effect.putTestLog`). -/
abbrev SessionKV := List (String × Session × Nat)

/-- `session:${userId}` (`src/session.js` `getSessionKey`). -/
def getSessionKey (userId : String) : String :=
  "session:" ++ userId

/-- Raw lookup including the TTL the entry was written with. -/
def kvGetEntry (kv : SessionKV) (key : String) : Option (Session × Nat) :=
  (kv.find? (fun e => e.1 == key)).map (·.2)

/-- `env.KV.get(key)`. -/
def kvGet (kv : SessionKV) (key : String) : Option Session :=
  (kvGetEntry kv key).map (·.1)

/-- `env.KV.put(key, value, {expirationTtl})`: replaces any entry at `key`. -/
def kvPut (kv : SessionKV) (key : String) (s : Session) (ttl : Nat) : SessionKV :=
  (key, s, ttl) :: kv.filter (fun e => !(e.1 == key))

/-- `env.KV.delete(key)`. -/
def kvDelete (kv : SessionKV) (key : String) : SessionKV :=
  kv.filter (fun e => !(e.1 == key))

/-- `SESSION_TTL` (`src/session.js` line 6). -/
def SESSION_TTL : Nat := 3600

/-- `getSession(userId, env)`. -/
def getSession (kv : SessionKV) (userId : String) : Option Session :=
  kvGet kv (getSessionKey userId)

/-- `updateSession(userId, updates, env)` (`src/session.js` lines 61-109):
read the existing session or create the defaults, merge the updates over it,
store the result with `SESSION_TTL`, and return it. -/
def updateSession (kv : SessionKV) (userId : String) (u : SessionUpdates)
    (now : Nat) : SessionKV × Session :=
  let base := (getSession kv userId).getD (defaultSession now)
  let s := applyUpdates base u
  (kvPut kv (getSessionKey userId) s SESSION_TTL, s)

/-- `clearSession(userId, env)`. -/
def clearSession (kv : SessionKV) (userId : String) : SessionKV :=
  kvDelete kv (getSessionKey userId)

/-! ## Configuration (`src/config.js`) and formatter (`src/formatter.js`) -/

/-- `s.startsWith(p)` (computable model over the character list). -/
def strStartsWith (s p : String) : Bool :=
  p.data.isPrefixOf s.data

/-- `s.slice(n)` / dropping the matched prefix in `data.replace(p, '')`
(computable model over the character list). -/
def strDrop (s : String) (n : Nat) : String :=
  ⟨s.data.drop n⟩

/-- JavaScript truthiness of a nullable string: `null`, `undefined` and `''`
are falsy. -/
def strTruthy : Option String → Bool
  | none => false
  | some s => s ≠ ""

/-- `a || b` on nullable strings (used for `message.text || message.caption
|| ''` and similar fallbacks). -/
def jsOr (a : Option String) (b : String) : String :=
  match a with
  | some s => if s = "" then b else s
  | none => b

/-- The configuration fields of `getConfig` that the delivery pipeline
reads. -/
structure Config where
  testMode : Bool
  adminChatId : String
  adminChatIdTest : Option String
deriving DecidableEq

/-- `config.testMode && config.adminChatIdTest ? config.adminChatIdTest :
config.adminChatId` (`src/index.js`, `forwardMessageToAdmin`). -/
def adminTarget (c : Config) : String :=
  if c.testMode && strTruthy c.adminChatIdTest then c.adminChatIdTest.getD c.adminChatId
  else c.adminChatId

/-- `CATEGORY_NAMES` (`src/formatter.js`). -/
def CATEGORY_NAMES : String → Option String := fun c =>
  if c = "idea" then some "Идея / предложение"
  else if c = "problem" then some "Проблема / жалоба"
  else if c = "gratitude" then some "Благодарность / признание"
  else none

/-- `CATEGORY_EMOJIS` (`src/formatter.js`). -/
def CATEGORY_EMOJIS : String → Option String := fun c =>
  if c = "idea" then some "💬"
  else if c = "problem" then some "⚠️"
  else if c = "gratitude" then some "❤️"
  else none

/-- `TOPIC_NAMES` (`src/formatter.js`). -/
def TOPIC_NAMES : String → Option String := fun t =>
  if t = "processes" then some "Процессы"
  else if t = "colleagues" then some "Коллеги"
  else if t = "conditions" then some "Условия"
  else if t = "salary" then some "Зарплата"
  else if t = "management" then some "Менеджмент"
  else if t = "other" then some "Другое"
  else none

/-- `TBL[key] || key` where `key` is a nullable string: a `null` key misses
the table and the fallback interpolates as the string `"null"`. -/
def lookupOrSelf (tbl : String → Option String) (k : Option String) : String :=
  match k with
  | none => "null"
  | some s =>
    match tbl s with
    | some v => if v = "" then s else v
    | none => s

/-- `formatAdminMessage(session)` (`src/formatter.js` lines 44-57). -/
def formatAdminMessage (s : Session) : String :=
  let categoryName := lookupOrSelf CATEGORY_NAMES s.category
  let categoryEmoji := (s.category.bind CATEGORY_EMOJIS).getD "📩"
  let topicName := lookupOrSelf TOPIC_NAMES s.topic
  "📩 Новое анонимное сообщение\n\n" ++
    categoryEmoji ++ " " ++ categoryName ++ " → " ++ topicName ++ "\n\n" ++
    "Текст:\n" ++ jsOr s.messageText "без сообщения"

/-! ## Outbound effects of the webhook handlers

Handlers are modelled as pure functions from the session store and the
inbound event to the new store plus a trace of outbound effects.  Messages
to the reporting user's chat and to the admin chat are distinguished by
constructor. -/

/-- One outbound call made to the admin chat by the delivery pipeline. -/
inductive AdminSend where
  /-- `sendMessage(adminChatId, text)`. -/
  | text (body : String) : AdminSend
  /-- `sendPhoto(adminChatId, fileId, caption)`. -/
  | photo (fileId : String) (caption : String) : AdminSend
  /-- `sendVideo(adminChatId, fileId, caption)`. -/
  | video (fileId : String) (caption : String) : AdminSend
  /-- `sendDocument(adminChatId, fileId, caption)`. -/
  | document (fileId : String) (caption : String) : AdminSend
  /-- `sendMediaGroup(adminChatId, media)`: each entry is
  `(type, media, caption)`. -/
  | mediaGroup (media : List (MediaType × String × Option String)) : AdminSend
deriving DecidableEq

/-- An outbound effect of a handler invocation. -/
inductive Effect where
  /-- `answerCallbackQuery(id, text)`. -/
  | answerCallback (text : String) : Effect
  /-- `sendMessage(chatId, text)` to the reporting user's chat. -/
  | sendUser (text : String) : Effect
  /-- `editMessageText(chatId, messageId, text)` in the user's chat. -/
  | editUser (messageId : Nat) (text : String) : Effect
  /-- A send to the admin chat (delivery pipeline). -/
  | admin (chatId : String) (send : AdminSend) : Effect
  /-- `env.KV.put('test_log:...', ..., {expirationTtl: ttl})`. -/
  | putTestLog (ttl : Nat) : Effect
deriving DecidableEq

/-- The admin-chat sends contained in an effect trace, in order. -/
def adminSends (effs : List Effect) : List AdminSend :=
  effs.filterMap fun e =>
    match e with
    | .admin _ a => some a
    | _ => none

/-! ## Inbound messages and shared user-facing texts -/

/-- The fields of a Telegram `Message` object that `handleMessage` reads.
`photo` is the list of photo-size file ids (the code takes the last). -/
structure TMessage where
  text : Option String
  caption : Option String
  photo : List String
  video : Option String
  document : Option String
  media_group_id : Option String
deriving DecidableEq

/-- Media extraction of `handleMessage`: the largest photo, else the video,
else the document, else nothing. -/
def extractMediaItems (m : TMessage) : List MediaItem :=
  match m.photo.getLast? with
  | some fid => [⟨.photo, fid⟩]
  | none =>
    match m.video with
    | some fid => [⟨.video, fid⟩]
    | none =>
      match m.document with
      | some fid => [⟨.document, fid⟩]
      | none => []

/-- `message.text || message.caption || ''`. -/
def extractText (m : TMessage) : String :=
  jsOr m.text (jsOr m.caption "")

/-- Neutral reply to an untrusted user. -/
def notActiveText : String := "Привет! Этот бот пока не активен."

/-- Reply when no session exists. -/
def sessionExpiredText : String := "Сессия истекла. Начните заново с /start"

/-- Reply to content arriving outside the `message` step. -/
def followInstructionsText : String :=
  "Пожалуйста, следуйте инструкциям. Используйте /start для начала."

/-- Reply to an empty content message. -/
def emptyInputText : String :=
  "Пожалуйста, отправьте текстовое сообщение или медиафайл."

/-- Recoverable delivery-failure message. -/
def sendErrorText : String :=
  "Произошла ошибка при отправке сообщения. Пожалуйста, попробуйте позже."

/-- `categoryNames` map of `index.js` (second revision),
`categoryNames[c] || c`. -/
def indexCategoryName (c : String) : String :=
  if c = "idea" then "💬 Идея / предложение"
  else if c = "problem" then "⚠️ Проблема / жалоба"
  else if c = "gratitude" then "❤️ Благодарность / признание"
  else c

/-- `topicNames` map of `index.js` (second revision), `topicNames[t] || t`. -/
def indexTopicName (t : String) : String :=
  if t = "processes" then "Процессы"
  else if t = "colleagues" then "Коллеги"
  else if t = "conditions" then "Условия"
  else if t = "salary" then "Зарплата"
  else if t = "management" then "Менеджмент"
  else if t = "other" then "Другое"
  else t

/-- `categoryNames[session.category] || session.category` where the key is
nullable (a `null` key interpolates as `"null"`). -/
def indexCategoryNameOpt : Option String → String
  | none => "null"
  | some c => indexCategoryName c

/-! ## Second-revision webhook handler (`src/index.js` lines 805-1673) -/

/-- Result of a handler step: the new session store and the effect trace. -/
structure StepResult where
  kv : SessionKV
  effects : List Effect
deriving DecidableEq

/-- Result of `handleMessage`: additionally records each session passed into
the confirmation-building path (`processMessageForSentiment`). -/
structure HandleResult where
  kv : SessionKV
  effects : List Effect
  builds : List Session
deriving DecidableEq

/-- ` (${n} файл${n > 1 ? 'а' : ''})` of `processMessageForSentiment`
(second revision, line 1425). -/
def confirmMediaText (n : Nat) : String :=
  if n > 0 then " (" ++ toString n ++ " файл" ++ (if n > 1 then "а" else "") ++ ")"
  else ""

/-- The confirmation prompt of `processMessageForSentiment`
(second revision). -/
def confirmMessageText (n : Nat) : String :=
  "✅ Ваше сообщение готово к отправке" ++ confirmMediaText n ++ ".\n\n" ++
    "Нажмите \"Отправить\" для подтверждения или \"Отменить\" для начала заново."

/-- `processMessageForSentiment` of the second revision (lines 1419-1488):
no sentiment analysis; show (or edit) the confirmation prompt and set the
step to `confirm`.  Note: the `confirmMessageId` store never happens because
`sendMessage` returns `messageId`, not `data`, so `result.data` is always
`undefined`. -/
def processMessageForSentimentV2 (kv : SessionKV) (userId : String)
    (session : Session) (messageId : Option Nat) (now : Nat) : StepResult :=
  let confirmMessage := confirmMessageText session.mediaItems.length
  let effs : List Effect :=
    match messageId with
    | some mid => [.editUser mid confirmMessage]
    | none => [.sendUser confirmMessage]
  let r := updateSession kv userId { noUpdates with step := some "confirm" } now
  ⟨r.1, effs⟩

/-- Merged `mediaItems` of the media-group branch (second revision, lines
1307-1310): append to the existing collection only when the stored
`mediaGroupId` strictly equals the incoming one. -/
def burstMergedItems (s : Session) (gid : String) (newItems : List MediaItem) :
    List MediaItem :=
  if s.mediaGroupId = some gid then s.mediaItems ++ newItems else newItems

/-- Merged `messageText` of the media-group branch (second revision, lines
1312-1318): an already-stored truthy text wins, otherwise the incoming
caption is kept. -/
def burstMergedText (s : Session) (gid : String) (txt : String) : String :=
  if s.mediaGroupId = some gid then
    if strTruthy s.messageText then s.messageText.getD "" else txt
  else txt

/-- The `updateSession` argument of the media-group branch (second revision,
lines 1321-1327): store merged text and items, remember the group id, keep
the step at `message`, and stamp `lastMediaTimestamp` with `Date.now()`. -/
def burstUpdates (s : Session) (gid : String) (newItems : List MediaItem)
    (txt : String) (now : Nat) : SessionUpdates :=
  { noUpdates with
    messageText := some (some (burstMergedText s gid txt))
    mediaItems := some (burstMergedItems s gid newItems)
    mediaGroupId := some (some gid)
    step := some "message"
    lastMediaTimestamp := some (some now) }

/-- The session produced by one media-group arrival. -/
def burstArrive (s : Session) (gid : String) (newItems : List MediaItem)
    (txt : String) (now : Nat) : Session :=
  applyUpdates s (burstUpdates s gid newItems txt now)

/-- The post-sleep recheck of the media-group branch (second revision, lines
1341-1343): still the same media group, and no media arrived during the last
1000 ms.  A missing `lastMediaTimestamp` makes the JavaScript comparison
`NaN >= 1000`, which is false. -/
def quietWindowOk (s : Session) (gid : String) (nowChk : Nat) : Bool :=
  decide (s.mediaGroupId = some gid) &&
    match s.lastMediaTimestamp with
    | some ts => decide (1000 ≤ nowChk - ts)
    | none => false

/-- Result of `forwardMessageToAdmin`. -/
structure ForwardResult where
  kv : SessionKV
  effects : List Effect
deriving DecidableEq

/-- `forwardMessageToAdmin` of the second revision (lines 1499-1620).
`sendOk` is the `success` flag of the outbound send (after the client's
retries); `phrase` is the inspirational phrase drawn by `getRandomPhrase`.
On success: acknowledge the user (editing `confirmMessageId` in place when
present), write a test log when `TEST_MODE` is on, and clear the session.
On failure (`throw` on `!sendResult.success`): report the recoverable error
and leave the store untouched.

The attachment-count dispatch of `forwardMessageToAdmin` (second
revision, lines 1522-1549): zero items send the formatted text; one item
sends it as the caption of a photo/video/document send; two or more items
send one media group whose first entry carries the formatted text as
caption (lines 1522-1549). -/
def forwardDeliver (items : List MediaItem) (formatted : String) : AdminSend :=
  match items with
  | [] => .text formatted
  | [m] =>
    match m.mtype with
    | .photo => .photo m.fileId formatted
    | .video => .video m.fileId formatted
    | .document => .document m.fileId formatted
  | rest =>
    .mediaGroup (rest.enum.map fun p =>
      (p.2.mtype, p.2.fileId, if p.1 = 0 then some formatted else none))

def forwardMessageToAdminV2 (kv : SessionKV) (cfg : Config) (userId : String)
    (session : Session) (confirmMessageId : Option Nat) (sendOk : Bool)
    (phrase : String) : ForwardResult :=
  let adminChatId := adminTarget cfg
  let formatted := formatAdminMessage session
  let deliver : AdminSend := forwardDeliver session.mediaItems formatted
  if sendOk then
    let ack : Effect :=
      match confirmMessageId with
      | some mid => .editUser mid ("✅ Сообщение отправлено!\n\n" ++ phrase)
      | none => .sendUser phrase
    let logs : List Effect := if cfg.testMode then [.putTestLog 2592000] else []
    ⟨clearSession kv userId, [.admin adminChatId deliver, ack] ++ logs⟩
  else
    let errEff : Effect :=
      match confirmMessageId with
      | some mid => .editUser mid ("❌ " ++ sendErrorText)
      | none => .sendUser sendErrorText
    ⟨kv, [.admin adminChatId deliver, errEff]⟩

/-- The `updateSession` argument of `confirm:rewrite` (second revision,
lines 1155-1162). -/
def rewriteUpdates : SessionUpdates :=
  { noUpdates with
    step := some "message"
    messageText := some none
    mediaItems := some []
    mediaGroupId := some none
    waitingForMediaGroup := some false
    sentiment := some none }

/-- The `updateSession` argument of `confirm:cancel` (second revision,
lines 1175-1184). -/
def cancelUpdates : SessionUpdates :=
  { rewriteUpdates with
    step := some "category"
    category := some none
    topic := some none }

/-- Edited text after a category is selected (second revision, lines
1100-1101 with `sendTopicSelection`). -/
def categorySelectedText (c : String) : String :=
  "Выбрана категория: " ++ indexCategoryName c ++
    "\n\nВыберите тему вашего сообщения:"

/-- Edited text after a topic is selected (second revision, lines
1137-1143). -/
def topicChosenText (cat : Option String) (t : String) : String :=
  "Выбрана категория: " ++ indexCategoryNameOpt cat ++ "\n" ++
    "Выбрана тема: " ++ indexTopicName t ++ "\n\n" ++
    "✍️ Отлично! Теперь напишите ваше сообщение.\n\n" ++
    "Вы можете отправить текст, фото, видео или документ или все вместе, но в одном сообщении."

/-- ` (${n} файл${...})` of the `confirm:send` status edit (second revision,
line 1210). -/
def sendingMediaText (n : Nat) : String :=
  if n > 0 then
    " (" ++ toString n ++ " файл" ++
      (if n > 1 then (if n > 4 then "ов" else "а") else "") ++ ")"
  else ""

/-- `📤 Отправка сообщения${mediaText}...` (second revision, line 1211). -/
def sendingMessageText (n : Nat) : String :=
  "📤 Отправка сообщения" ++ sendingMediaText n ++ "..."

/-- `routeCallbackQuery` of the second revision (lines 1058-1242).
`messageId` is `callbackQuery.message.message_id`; `trusted` the result of
`isTrustedUser`; `sendOk` and `phrase` parameterize the delivery pipeline.
Dispatch is purely on the `data` prefix; the current `session.step` is never
consulted.  In `confirm:cancel`, `sendMessage`'s result has no `data` field,
so the re-stored `flowMessageId` is `undefined` (`some none` here). -/
def routeCallbackQueryV2 (kv : SessionKV) (cfg : Config) (userId : String)
    (messageId : Nat) (data : String) (trusted : Bool) (sendOk : Bool)
    (phrase : String) (now : Nat) : StepResult :=
  if trusted = false then ⟨kv, [.answerCallback "Доступ запрещён"]⟩
  else
    match getSession kv userId with
    | none => ⟨kv, [.answerCallback sessionExpiredText]⟩
    | some session =>
      if strStartsWith data "category:" then
        let category := strDrop data 9
        let r := updateSession kv userId
          { noUpdates with
            category := some (some category)
            step := some "topic"
            flowMessageId := some (some messageId) } now
        ⟨r.1, [.answerCallback "", .editUser messageId (categorySelectedText category)]⟩
      else if strStartsWith data "topic:" then
        let topic := strDrop data 6
        let r := updateSession kv userId
          { noUpdates with topic := some (some topic), step := some "message" } now
        ⟨r.1, [.answerCallback "",
               .editUser messageId (topicChosenText session.category topic)]⟩
      else if strStartsWith data "confirm:" then
        let action := strDrop data 8
        if action = "rewrite" then
          let r := updateSession kv userId rewriteUpdates now
          ⟨r.1, [.answerCallback "",
                 .editUser messageId "✏️ Сообщение отменено. Напишите новое сообщение."]⟩
        else if action = "cancel" then
          let r := updateSession kv userId cancelUpdates now
          let r2 := updateSession r.1 userId { noUpdates with flowMessageId := some none } now
          ⟨r2.1, [.answerCallback "", .editUser messageId "❌ Сообщение отменено.",
                  .sendUser "Начнём заново. Выберите категорию вашего сообщения:"]⟩
        else if action = "send" then
          let pre : List Effect :=
            [.answerCallback "Отправка сообщения...",
             .editUser messageId (sendingMessageText session.mediaItems.length)]
          match getSession kv userId with
          | none => ⟨kv, pre ++ [.editUser messageId ("❌ " ++ sessionExpiredText)]⟩
          | some freshSession =>
            let fwd := forwardMessageToAdminV2 kv cfg userId freshSession
              (some messageId) sendOk phrase
            ⟨fwd.kv, pre ++ fwd.effects⟩
        else ⟨kv, [.answerCallback "Неизвестное действие"]⟩
      else ⟨kv, [.answerCallback "Неизвестное действие"]⟩

/-- `handleMessage` of the second revision (lines 1250-1408), for a single
inbound message with no concurrent invocations: the post-sleep re-read at
`now + 1000` observes exactly the session this invocation stored.  (The
interleaved burst semantics is modelled separately below.) -/
def handleMessageV2 (kv : SessionKV) (userId : String) (msg : TMessage)
    (trusted : Bool) (now : Nat) : HandleResult :=
  if trusted = false then ⟨kv, [.sendUser notActiveText], []⟩
  else
    match getSession kv userId with
    | none => ⟨kv, [.sendUser sessionExpiredText], []⟩
    | some session =>
      let messageText := extractText msg
      let mediaItems := extractMediaItems msg
      match msg.media_group_id with
      | some gid =>
        let r := updateSession kv userId
          (burstUpdates session gid mediaItems messageText now) now
        match getSession r.1 userId with
        | some latestSession =>
          if quietWindowOk latestSession gid (now + 1000) then
            let pr := processMessageForSentimentV2 r.1 userId latestSession
              latestSession.confirmMessageId (now + 1000)
            ⟨pr.kv, pr.effects, [latestSession]⟩
          else ⟨r.1, [], []⟩
        | none => ⟨r.1, [], []⟩
      | none =>
        if session.step ≠ "message" then ⟨kv, [.sendUser followInstructionsText], []⟩
        else if messageText = "" ∧ mediaItems = [] then
          ⟨kv, [.sendUser emptyInputText], []⟩
        else
          let r := updateSession kv userId
            { noUpdates with
              messageText := some (some messageText)
              mediaItems := some mediaItems
              mediaGroupId := some none
              waitingForMediaGroup := some false } now
          let pr := processMessageForSentimentV2 r.1 userId r.2 none now
          ⟨pr.kv, pr.effects, [r.2]⟩

/-! ## Interleaved burst semantics (media coalescer, second revision)

A burst of `n` media-group messages with one `media_group_id` produces `n`
concurrent invocations of `handleMessage`.  Invocation `i` performs its
arrival update at time `t i` (instantaneous handling) and its post-sleep
recheck at `t i + 1000`.  All cross-invocation state is the stored session,
so the session evolves by the arrival updates alone (rechecks only read),
and recheck `i` observes the session after exactly those arrivals that
happened strictly before `t i + 1000`.  Since arrival times are strictly
increasing, that set of arrivals is a prefix. -/

/-- The stored session after the first `k` arrivals of the burst:
arrival `i` carries the single extracted item `item i` and caption text
`cap i`, and is stamped with time `t i`. -/
def burstSessAfter (s0 : Session) (gid : String) (item : Nat → MediaItem)
    (cap : Nat → String) (t : Nat → Nat) : Nat → Session
  | 0 => s0
  | k + 1 => burstArrive (burstSessAfter s0 gid item cap t k) gid [item k] (cap k) (t k)

/-- How many of the `n` arrivals happen strictly before recheck `i` at
`t i + 1000`. -/
def burstObs (n : Nat) (t : Nat → Nat) (i : Nat) : Nat :=
  ((Finset.range n).filter fun j => t j < t i + 1000).card

/-- The sessions observed by those rechecks of the burst whose quiet-window
test passes, i.e. the sessions handed to the confirmation-building path
(`processMessageForSentiment`), in recheck order. -/
def burstBuildSessions (s0 : Session) (gid : String) (item : Nat → MediaItem)
    (cap : Nat → String) (t : Nat → Nat) (n : Nat) : List Session :=
  (List.range n).filterMap fun i =>
    let s := burstSessAfter s0 gid item cap t (burstObs n t i)
    if quietWindowOk s gid (t i + 1000) then some s else none

/-! ## First-revision webhook handler (`src/index.js` lines 1-805)

Only the parts that differ from the second revision and are needed for the
claims: `handleMessage` (lines 396-555) with its pending-media-group
finalization, and its `processMessageForSentiment` (lines 565-647) with the
sentiment gate. -/

/-- The negative-sentiment warning of the first revision. -/
def sentimentWarningText : String :=
  "⚠️ Обратите внимание: ваше сообщение содержит негативную тональность.\n\n" ++
    "Вы можете:\n• Отправить сообщение как есть\n• Изменить формулировку"

/-- `processMessageForSentiment` of the first revision (lines 565-647).
`sentiment` is the analyzer's verdict (`none` when AI is disabled, the text
is empty, or analysis failed).  `NEGATIVE` shows the send/rewrite warning
and moves the step to `sentiment_review`; anything else shows the
confirmation prompt and moves the step to `confirm`. -/
def processMessageForSentimentV1 (kv : SessionKV) (userId : String)
    (session : Session) (sentiment : Option String) (now : Nat) : StepResult :=
  let kv1 :=
    match sentiment with
    | some v => (updateSession kv userId { noUpdates with sentiment := some (some v) } now).1
    | none => kv
  if sentiment = some "NEGATIVE" then
    let r := updateSession kv1 userId { noUpdates with step := some "sentiment_review" } now
    ⟨r.1, [.sendUser sentimentWarningText]⟩
  else
    let r := updateSession kv1 userId { noUpdates with step := some "confirm" } now
    ⟨r.1, [.sendUser (confirmMessageText session.mediaItems.length)]⟩

/-- `updateSession` argument resetting the session for a new message after a
pending media group was finalized (first revision, lines 497-504). -/
def resetAfterBurstUpdates : SessionUpdates :=
  { noUpdates with
    step := some "message"
    messageText := some none
    mediaItems := some []
    mediaGroupId := some none
    waitingForMediaGroup := some false
    sentiment := some none }

/-- User notice after a pending media group is finalized (first revision,
lines 507-512). -/
def burstFinalizedText : String :=
  "Предыдущее сообщение обработано. Пожалуйста, отправьте новое сообщение."

/-- The `updateSession` argument of the first revision's media-group branch
(lines 478-483): unlike the second revision it raises the
`waitingForMediaGroup` flag and does not stamp a timestamp or touch the
step. -/
def burstUpdatesV1 (s : Session) (gid : String) (newItems : List MediaItem)
    (txt : String) : SessionUpdates :=
  { noUpdates with
    messageText := some (some (burstMergedText s gid txt))
    mediaItems := some (burstMergedItems s gid newItems)
    mediaGroupId := some (some gid)
    waitingForMediaGroup := some true }

/-- `handleMessage` of the first revision (lines 396-555).  Differences from
the second revision: the step gate runs before any media handling, the
media-group branch only collects (`waitingForMediaGroup: true`, no delayed
recheck), and a non-grouped message arriving over a pending media group
finalizes that group first (lines 491-514): its confirmation is built from
the stored session, the session is reset for a new message, and the user is
asked to resend. -/
def handleMessageV1 (kv : SessionKV) (userId : String) (msg : TMessage)
    (trusted : Bool) (sentiment : Option String) (now : Nat) : HandleResult :=
  if trusted = false then ⟨kv, [.sendUser notActiveText], []⟩
  else
    match getSession kv userId with
    | none => ⟨kv, [.sendUser sessionExpiredText], []⟩
    | some session =>
      if session.step ≠ "message" then ⟨kv, [.sendUser followInstructionsText], []⟩
      else
        let existingSession := session
        let messageText := extractText msg
        let mediaItems := extractMediaItems msg
        match msg.media_group_id with
        | some gid =>
          let r := updateSession kv userId
            (burstUpdatesV1 existingSession gid mediaItems messageText) now
          ⟨r.1, [], []⟩
        | none =>
          if existingSession.waitingForMediaGroup ∧ existingSession.mediaItems ≠ [] then
            let pr := processMessageForSentimentV1 kv userId existingSession sentiment now
            let r := updateSession pr.kv userId resetAfterBurstUpdates now
            ⟨r.1, pr.effects ++ [.sendUser burstFinalizedText], [existingSession]⟩
          else if messageText = "" ∧ mediaItems = [] then
            ⟨kv, [.sendUser emptyInputText], []⟩
          else
            let r := updateSession kv userId
              { noUpdates with
                messageText := some (some messageText)
                mediaItems := some mediaItems
                mediaGroupId := some none
                waitingForMediaGroup := some false } now
            let pr := processMessageForSentimentV1 r.1 userId r.2 sentiment now
            ⟨pr.kv, pr.effects, [r.2]⟩

/-! ## Theorems: the outbound client (claims C3, C4, C5) -/

/-- A fetch outcome that takes the generic `catch` path of `apiRequest`:
anything that is neither a returned 2xx body nor a 429 with a truthy
`retry_after` hint. -/
def Attempt.isGenericFailure : Attempt → Bool
  | .ok _ _ => false
  | a => !a.is429Hint

/-- A transient failure in the sense of the spec's retry-ceiling property:
a network error or a 5xx response. -/
def Attempt.isTransientFailure : Attempt → Bool
  | .netErr => true
  | .err s _ => decide (500 ≤ s ∧ s < 600)
  | _ => false

theorem is429Hint_false_of_ne_429 (s : Nat) (ra : Option Nat) (h : s ≠ 429) :
    (Attempt.err s ra).is429Hint = false := by
  cases ra with
  | none => rfl
  | some x => simp [Attempt.is429Hint, h]

theorem isGenericFailure_of_transient (r : Attempt)
    (h : r.isTransientFailure = true) : r.isGenericFailure = true := by
  cases r with
  | netErr => rfl
  | badJson s => rfl
  | ok b p => simp [Attempt.isTransientFailure] at h
  | err s ra =>
    have hs : s ≠ 429 := by
      simp [Attempt.isTransientFailure] at h
      omega
    simp [Attempt.isGenericFailure, is429Hint_false_of_ne_429 s ra hs]

/-- Unfolding `apiRequest`'s loop on a generic failure that is not the last
allowed attempt: sleep `2^attempt` seconds and go round again. -/
theorem apiGo_cons_generic (retries attempt : Nat) (r : Attempt)
    (rest : List Attempt) (hf : r.isGenericFailure = true)
    (h1 : attempt < retries) (h2 : attempt ≠ retries - 1) :
    apiGo retries attempt (r :: rest) =
      ⟨(apiGo retries (attempt + 1) rest).result,
       (apiGo retries (attempt + 1) rest).fetches + 1,
       2 ^ attempt * 1000 :: (apiGo retries (attempt + 1) rest).sleeps⟩ := by
  cases r with
  | ok b p => simp [Attempt.isGenericFailure] at hf
  | netErr => simp [apiGo, not_le.mpr h1, Attempt.is429Hint, h2]
  | badJson s => simp [apiGo, not_le.mpr h1, Attempt.is429Hint, h2]
  | err s ra =>
    have hh : (Attempt.err s ra).is429Hint = false := by
      simpa [Attempt.isGenericFailure] using hf
    simp [apiGo, not_le.mpr h1, hh, h2]

/-- Unfolding `apiRequest`'s loop on a generic failure in the last allowed
attempt: the error is rethrown. -/
theorem apiGo_cons_generic_last (retries attempt : Nat) (r : Attempt)
    (rest : List Attempt) (hf : r.isGenericFailure = true)
    (h1 : attempt < retries) (h2 : attempt = retries - 1) :
    apiGo retries attempt (r :: rest) = ⟨none, 1, []⟩ := by
  cases r with
  | ok b p => simp [Attempt.isGenericFailure] at hf
  | netErr =>
    simp [apiGo, not_le.mpr h1, Attempt.is429Hint, h2]
    omega
  | badJson s =>
    simp [apiGo, not_le.mpr h1, Attempt.is429Hint, h2]
    omega
  | err s ra =>
    have hh : (Attempt.err s ra).is429Hint = false := by
      simpa [Attempt.isGenericFailure] using hf
    simp [apiGo, not_le.mpr h1, hh, h2]
    omega

/-- C5: when every attempt returns a transient failure (network error or
5xx), `apiRequest` performs exactly 3 fetch attempts, sleeping 1 s after the
first failure and 2 s after the second, then throws; the `sendMessage`
wrapper catches the throw and reports `success: false` to its caller. -/
theorem apiRequest_retry_ceiling (r1 r2 r3 : Attempt)
    (h1 : r1.isTransientFailure = true) (h2 : r2.isTransientFailure = true)
    (h3 : r3.isTransientFailure = true) :
    apiRequest [r1, r2, r3] = ⟨none, 3, [1000, 2000]⟩ ∧
      sendMessageSuccess [r1, r2, r3] = false := by
  have e1 := apiGo_cons_generic 3 0 r1 [r2, r3]
    (isGenericFailure_of_transient r1 h1) (by omega) (by omega)
  have e2 := apiGo_cons_generic 3 1 r2 [r3]
    (isGenericFailure_of_transient r2 h2) (by omega) (by omega)
  have e3 := apiGo_cons_generic_last 3 2 r3 []
    (isGenericFailure_of_transient r3 h3) (by omega) rfl
  have : apiRequest [r1, r2, r3] = ⟨none, 3, [1000, 2000]⟩ := by
    simp [apiRequest, e1, e2, e3]
  exact ⟨this, by simp [sendMessageSuccess, this]⟩

/-- Witness for C5 at a concrete always-failing stream. -/
theorem apiRequest_retry_ceiling_witness :
    apiRequest [Attempt.netErr, Attempt.err 500 none, Attempt.err 503 (some 2)] =
        ⟨none, 3, [1000, 2000]⟩ ∧
      sendMessageSuccess [Attempt.netErr, Attempt.err 500 none, Attempt.err 503 (some 2)] =
        false :=
  apiRequest_retry_ceiling _ _ _ (by decide) (by decide) (by decide)

/-- C3, counterexample: the claim says a 429-with-hint wait "does not consume
one of the fixed 3 retry attempts", so an operation whose first response is a
429 with a hint should still get 3 genuine attempts afterwards.  In the code
the `continue` after the hinted sleep still runs the loop's `attempt++`, so
after a 429-with-hint and two network errors the available fourth response —
a success — is never fetched: only 3 fetches happen and the call throws.
Note also the second sleep is `2^1 * 1000`, because the 429 advanced the
attempt counter. -/
theorem apiRequest_429_consumes_attempt_cex :
    apiRequest [Attempt.err 429 (some 5), Attempt.netErr, Attempt.netErr,
        Attempt.ok true "delivered"] =
      ⟨none, 3, [5000, 2000]⟩ := by
  decide

/-- C3, amended: a 429 response with a truthy `retry_after` hint makes the
client wait `hint * 1000` ms instead of the exponential `2^attempt * 1000` ms
— but it does consume one of the 3 loop iterations: the run continues at
loop counter 1 of 3 on the remaining responses. -/
theorem apiRequest_429_hint_overrides_backoff (ra : Nat) (rest : List Attempt)
    (hra : ra ≠ 0) :
    apiRequest (Attempt.err 429 (some ra) :: rest) =
      ⟨(apiGo 3 1 rest).result, (apiGo 3 1 rest).fetches + 1,
       ra * 1000 :: (apiGo 3 1 rest).sleeps⟩ := by
  simp [apiRequest, apiGo, Attempt.is429Hint, Attempt.hint, hra]

/-- Witness for the amended C3 at hint 5 s and an empty remainder. -/
theorem apiRequest_429_hint_overrides_backoff_witness :
    apiRequest [Attempt.err 429 (some 5)] = ⟨none, 1, [5000]⟩ := by
  rw [apiRequest_429_hint_overrides_backoff 5 [] (by decide)]
  decide

/-- C4, counterexample: the claim says a non-429 4xx status or an unparsable
body makes the client "fail immediately, with no retry attempt and no backoff
sleep".  In the code both are thrown inside the `try` and caught by the
generic retry `catch`: after a 400 response (or a parse failure) the client
sleeps 1 s and retries, and the second attempt here succeeds. -/
theorem apiRequest_nonretryable_cex :
    apiRequest [Attempt.err 400 none, Attempt.ok true "d"] =
        ⟨some (true, "d"), 2, [1000]⟩ ∧
      apiRequest [Attempt.badJson 200, Attempt.ok true "d"] =
        ⟨some (true, "d"), 2, [1000]⟩ := by
  constructor
  · decide
  · decide

/-- C4, amended: a 4xx status other than 429 and an unparsable body are
treated like any transient failure: the client sleeps the exponential
backoff (1 s on the first attempt) and retries, continuing at loop counter
1 of 3. -/
theorem apiRequest_nonretryable_retried (s : Nat) (ra : Option Nat) (st : Nat)
    (rest : List Attempt) (h4 : 400 ≤ s) (h5 : s < 500) (h429 : s ≠ 429) :
    apiRequest (Attempt.err s ra :: rest) =
        ⟨(apiGo 3 1 rest).result, (apiGo 3 1 rest).fetches + 1,
         1000 :: (apiGo 3 1 rest).sleeps⟩ ∧
      apiRequest (Attempt.badJson st :: rest) =
        ⟨(apiGo 3 1 rest).result, (apiGo 3 1 rest).fetches + 1,
         1000 :: (apiGo 3 1 rest).sleeps⟩ := by
  have hgen : (Attempt.err s ra).isGenericFailure = true := by
    simp [Attempt.isGenericFailure, is429Hint_false_of_ne_429 s ra h429]
  constructor
  · have e := apiGo_cons_generic 3 0 (Attempt.err s ra) rest hgen (by omega) (by omega)
    simpa [apiRequest] using e
  · have e := apiGo_cons_generic 3 0 (Attempt.badJson st) rest rfl (by omega) (by omega)
    simpa [apiRequest] using e

/-- Witness for the amended C4 at a 400 response, a parse failure, and a
successful second attempt. -/
theorem apiRequest_nonretryable_retried_witness :
    apiRequest [Attempt.err 400 (some 3), Attempt.ok true "w"] =
        ⟨some (true, "w"), 2, [1000]⟩ ∧
      apiRequest [Attempt.badJson 502, Attempt.ok true "w"] =
        ⟨some (true, "w"), 2, [1000]⟩ := by
  have h := apiRequest_nonretryable_retried 400 (some 3) 502 [Attempt.ok true "w"]
    (by decide) (by decide) (by decide)
  constructor
  · rw [h.1]; decide
  · rw [h.2]; decide

/-! ## Store lemmas shared by the session-flow claims -/

theorem kvGetEntry_kvPut_self (kv : SessionKV) (k : String) (s : Session)
    (ttl : Nat) : kvGetEntry (kvPut kv k s ttl) k = some (s, ttl) := by
  simp [kvGetEntry, kvPut, List.find?_cons_of_pos]

theorem kvGetEntry_kvDelete_self (kv : SessionKV) (k : String) :
    kvGetEntry (kvDelete kv k) k = none := by
  induction kv with
  | nil => rfl
  | cons e t ih =>
    by_cases he : e.1 = k
    · simpa [kvDelete, kvGetEntry, List.filter_cons, he] using ih
    · have hb : (e.1 == k) = false := beq_eq_false_iff_ne.mpr he
      simp only [kvDelete, kvGetEntry, List.filter_cons, hb] at ih ⊢
      simpa [List.find?_cons_of_neg, hb] using ih

theorem updateSession_snd (kv : SessionKV) (userId : String)
    (u : SessionUpdates) (now : Nat) :
    (updateSession kv userId u now).2 =
      applyUpdates ((getSession kv userId).getD (defaultSession now)) u := rfl

theorem getSession_updateSession_self (kv : SessionKV) (userId : String)
    (u : SessionUpdates) (now : Nat) :
    getSession (updateSession kv userId u now).1 userId =
      some (updateSession kv userId u now).2 := by
  simp [getSession, kvGet, updateSession, kvGetEntry_kvPut_self]

theorem getSession_clearSession_self (kv : SessionKV) (userId : String) :
    getSession (clearSession kv userId) userId = none := by
  simp [getSession, kvGet, clearSession, kvGetEntry_kvDelete_self]

/-! ## Theorems: session store creation (claim C10) -/

/-- C10: for a user with no stored session, `updateSession` does not treat
the write as "no session": it builds the fresh defaults (`step: 'category'`,
null `category`/`topic`/`messageText`/`sentiment`, empty `mediaItems`,
`createdAt: Date.now()`), merges the given updates over them — leaving every
field not named in the updates at its default — stores the result under the
user's key with the 3600-second TTL, and returns it. -/
theorem updateSession_creates_fresh (kv : SessionKV) (userId : String)
    (u : SessionUpdates) (now : Nat) (h : getSession kv userId = none) :
    (updateSession kv userId u now).2 = applyUpdates (defaultSession now) u ∧
      kvGetEntry (updateSession kv userId u now).1 (getSessionKey userId) =
        some ((updateSession kv userId u now).2, 3600) ∧
      getSession (updateSession kv userId u now).1 userId =
        some (applyUpdates (defaultSession now) u) ∧
      (u.step = none → (updateSession kv userId u now).2.step = "category") ∧
      (u.category = none → (updateSession kv userId u now).2.category = none) ∧
      (u.topic = none → (updateSession kv userId u now).2.topic = none) ∧
      (u.messageText = none → (updateSession kv userId u now).2.messageText = none) ∧
      (u.sentiment = none → (updateSession kv userId u now).2.sentiment = none) ∧
      (u.mediaItems = none → (updateSession kv userId u now).2.mediaItems = []) ∧
      (u.mediaGroupId = none → (updateSession kv userId u now).2.mediaGroupId = none) ∧
      (u.waitingForMediaGroup = none →
        (updateSession kv userId u now).2.waitingForMediaGroup = false) ∧
      (u.createdAt = none → (updateSession kv userId u now).2.createdAt = now) := by
  have hres : (updateSession kv userId u now).2 = applyUpdates (defaultSession now) u := by
    simp [updateSession, h]
  refine ⟨hres, ?_, ?_, ?_, ?_, ?_, ?_, ?_, ?_, ?_, ?_, ?_⟩
  · simpa [updateSession, h, SESSION_TTL] using
      kvGetEntry_kvPut_self kv (getSessionKey userId)
        (applyUpdates (defaultSession now) u) SESSION_TTL
  · rw [getSession_updateSession_self, hres]
  all_goals intro hu
  all_goals rw [hres]
  all_goals simp [applyUpdates, defaultSession, hu]

/-- Witness for C10: an `updateSession` addressed to an empty store. -/
theorem updateSession_creates_fresh_witness :
    (updateSession [] "u7" { noUpdates with topic := some (some "salary") } 42).2 =
        applyUpdates (defaultSession 42) { noUpdates with topic := some (some "salary") } ∧
      kvGetEntry (updateSession [] "u7" { noUpdates with topic := some (some "salary") } 42).1
          (getSessionKey "u7") =
        some ((updateSession [] "u7" { noUpdates with topic := some (some "salary") } 42).2, 3600) ∧
      getSession (updateSession [] "u7" { noUpdates with topic := some (some "salary") } 42).1 "u7" =
        some (applyUpdates (defaultSession 42) { noUpdates with topic := some (some "salary") }) ∧
      (updateSession [] "u7" { noUpdates with topic := some (some "salary") } 42).2.step =
        "category" := by
  have h := updateSession_creates_fresh [] "u7"
    { noUpdates with topic := some (some "salary") } 42 rfl
  exact ⟨h.1, h.2.1, h.2.2.1, h.2.2.2.1 rfl⟩

/-! ## Theorems: the delivery pipeline (claims C8, C9) -/

theorem adminSends_forward (kv : SessionKV) (cfg : Config) (userId : String)
    (s : Session) (cid : Option Nat) (ok : Bool) (phrase : String) :
    adminSends (forwardMessageToAdminV2 kv cfg userId s cid ok phrase).effects =
      [forwardDeliver s.mediaItems (formatAdminMessage s)] := by
  cases ok <;> cases cid <;>
    by_cases ht : cfg.testMode <;>
      simp [forwardMessageToAdminV2, adminSends, ht]

/-- C8: when the outbound delivery fails (`sendOk = false`, i.e. the send
wrappers reported failure after the client's retries were exhausted), the
delivery pipeline leaves the session store untouched — the session with its
`category`, `topic`, `messageText` and `mediaItems` stays stored — and a
recoverable error message is reported to the user (edited into the
confirmation message when one exists, sent fresh otherwise). -/
theorem forward_failure_preserves_session (kv : SessionKV) (cfg : Config)
    (userId : String) (s : Session) (cid : Option Nat) (phrase : String) :
    (forwardMessageToAdminV2 kv cfg userId s cid false phrase).kv = kv ∧
      getSession (forwardMessageToAdminV2 kv cfg userId s cid false phrase).kv userId =
        getSession kv userId ∧
      (match cid with
        | some mid => Effect.editUser mid ("❌ " ++ sendErrorText)
        | none => Effect.sendUser sendErrorText) ∈
        (forwardMessageToAdminV2 kv cfg userId s cid false phrase).effects := by
  refine ⟨?_, ?_, ?_⟩ <;> cases cid <;> simp [forwardMessageToAdminV2]

theorem enumFrom_caption {α : Type} (l : List α) (k : Nat) (hk : k ≠ 0)
    (t : String) :
    (l.enumFrom k).map (fun p => if p.1 = 0 then some t else none) =
      List.replicate l.length none := by
  induction l generalizing k with
  | nil => rfl
  | cons a l ih =>
    simp only [List.enumFrom_cons, List.map_cons, List.length_cons,
      List.replicate_succ, hk, if_neg hk]
    exact congrArg _ (ih (k + 1) (by omega))

theorem enum_map_snd_comp {α β : Type} (l : List α) (h : α → β) :
    l.enum.map (fun p => h p.2) = l.map h := by
  have : (fun p : Nat × α => h p.2) = h ∘ Prod.snd := rfl
  rw [this, ← List.map_map, List.enum_map_snd]

/-- C9: the delivery pipeline dispatches on the session's attachment count:
no attachments — exactly one text send of the formatted payload; exactly one
attachment — exactly one photo/video/document send with the formatted
payload as caption; two or more — exactly one media-group send whose first
item alone carries the formatted payload as caption, with no separate text
send to the admin chat in any case. -/
theorem forward_dispatch_by_attachment_count (kv : SessionKV) (cfg : Config)
    (userId : String) (s : Session) (cid : Option Nat) (ok : Bool)
    (phrase : String) :
    (s.mediaItems = [] →
      adminSends (forwardMessageToAdminV2 kv cfg userId s cid ok phrase).effects =
        [.text (formatAdminMessage s)]) ∧
    (∀ m, s.mediaItems = [m] →
      adminSends (forwardMessageToAdminV2 kv cfg userId s cid ok phrase).effects =
        [match m.mtype with
          | .photo => AdminSend.photo m.fileId (formatAdminMessage s)
          | .video => AdminSend.video m.fileId (formatAdminMessage s)
          | .document => AdminSend.document m.fileId (formatAdminMessage s)]) ∧
    (∀ a b rest, s.mediaItems = a :: b :: rest →
      ∃ media,
        adminSends (forwardMessageToAdminV2 kv cfg userId s cid ok phrase).effects =
            [.mediaGroup media] ∧
          media.map (fun e => (e.1, e.2.1)) =
            s.mediaItems.map (fun it => (it.mtype, it.fileId)) ∧
          media.map (fun e => e.2.2) =
            some (formatAdminMessage s) ::
              List.replicate (s.mediaItems.length - 1) none) := by
  refine ⟨?_, ?_, ?_⟩
  · intro h
    rw [adminSends_forward, h]
    rfl
  · intro m h
    rw [adminSends_forward, h]
    cases m with
    | mk mt fid => cases mt <;> rfl
  · intro a b rest h
    refine ⟨((a :: b :: rest).enum.map fun p =>
      (p.2.mtype, p.2.fileId, if p.1 = 0 then some (formatAdminMessage s) else none)),
      ?_, ?_, ?_⟩
    · rw [adminSends_forward, h]
      rfl
    · rw [h]
      have := enum_map_snd_comp (a :: b :: rest)
        (fun it : MediaItem => (it.mtype, it.fileId))
      rw [List.map_map, ← this]
      rfl
    · rw [h]
      rw [List.map_map]
      have hmap : ((fun e : MediaType × String × Option String => e.2.2) ∘
          (fun p : Nat × MediaItem =>
            (p.2.mtype, p.2.fileId, if p.1 = 0 then some (formatAdminMessage s) else none))) =
          fun p : Nat × MediaItem =>
            if p.1 = 0 then some (formatAdminMessage s) else none := rfl
      rw [hmap, List.enum_cons, List.map_cons]
      simp only [List.length_cons, Nat.add_sub_cancel, if_pos rfl]
      exact congrArg _ (enumFrom_caption (b :: rest) 1 (by omega) _)

/-- Witness for C9 at sessions with zero, one, and two attachments. -/
theorem forward_dispatch_by_attachment_count_witness :
    (adminSends (forwardMessageToAdminV2 [] ⟨false, "adm", none⟩ "u"
        (defaultSession 0) none true "p").effects =
      [.text (formatAdminMessage (defaultSession 0))]) ∧
    (adminSends (forwardMessageToAdminV2 [] ⟨false, "adm", none⟩ "u"
        { defaultSession 0 with mediaItems := [⟨.video, "f1"⟩] } none true "p").effects =
      [AdminSend.video "f1"
        (formatAdminMessage { defaultSession 0 with mediaItems := [⟨.video, "f1"⟩] })]) ∧
    (∃ media,
      adminSends (forwardMessageToAdminV2 [] ⟨false, "adm", none⟩ "u"
          { defaultSession 0 with mediaItems := [⟨.photo, "f1"⟩, ⟨.document, "f2"⟩] }
          none true "p").effects =
          [.mediaGroup media] ∧
        media.map (fun e => (e.1, e.2.1)) =
          ({ defaultSession 0 with
              mediaItems := [⟨.photo, "f1"⟩, ⟨.document, "f2"⟩] } : Session).mediaItems.map
            (fun it => (it.mtype, it.fileId)) ∧
        media.map (fun e => e.2.2) =
          some (formatAdminMessage
              { defaultSession 0 with mediaItems := [⟨.photo, "f1"⟩, ⟨.document, "f2"⟩] }) ::
            List.replicate
              (({ defaultSession 0 with
                  mediaItems := [⟨.photo, "f1"⟩, ⟨.document, "f2"⟩] } : Session).mediaItems.length - 1)
              none) := by
  refine ⟨?_, ?_, ?_⟩
  · exact (forward_dispatch_by_attachment_count [] ⟨false, "adm", none⟩ "u"
      (defaultSession 0) none true "p").1 rfl
  · exact (forward_dispatch_by_attachment_count [] ⟨false, "adm", none⟩ "u"
      { defaultSession 0 with mediaItems := [⟨.video, "f1"⟩] } none true "p").2.1
      ⟨.video, "f1"⟩ rfl
  · exact (forward_dispatch_by_attachment_count [] ⟨false, "adm", none⟩ "u"
      { defaultSession 0 with mediaItems := [⟨.photo, "f1"⟩, ⟨.document, "f2"⟩] }
      none true "p").2.2 ⟨.photo, "f1"⟩ ⟨.document, "f2"⟩ [] rfl

/-! ## Theorems: idempotence of the confirmation send (claim C7) -/

theorem routeCallbackQueryV2_expired (kv : SessionKV) (cfg : Config)
    (userId : String) (mid : Nat) (data : String) (sendOk : Bool)
    (phrase : String) (now : Nat) (h : getSession kv userId = none) :
    routeCallbackQueryV2 kv cfg userId mid data true sendOk phrase now =
      ⟨kv, [.answerCallback sessionExpiredText]⟩ := by
  simp [routeCallbackQueryV2, h]

theorem routeCallbackQueryV2_send (kv : SessionKV) (cfg : Config)
    (userId : String) (mid : Nat) (sendOk : Bool) (phrase : String) (now : Nat)
    (s : Session) (hs : getSession kv userId = some s) :
    routeCallbackQueryV2 kv cfg userId mid "confirm:send" true sendOk phrase now =
      ⟨(forwardMessageToAdminV2 kv cfg userId s (some mid) sendOk phrase).kv,
       [.answerCallback "Отправка сообщения...",
        .editUser mid (sendingMessageText s.mediaItems.length)] ++
         (forwardMessageToAdminV2 kv cfg userId s (some mid) sendOk phrase).effects⟩ := by
  simp [routeCallbackQueryV2, hs,
    show strStartsWith "confirm:send" "category:" = false from rfl,
    show strStartsWith "confirm:send" "topic:" = false from rfl,
    show strStartsWith "confirm:send" "confirm:" = true from rfl,
    show strDrop "confirm:send" 8 = "send" from rfl]

theorem forward_success_clears_session (kv : SessionKV) (cfg : Config)
    (userId : String) (s : Session) (cid : Option Nat) (phrase : String) :
    (forwardMessageToAdminV2 kv cfg userId s cid true phrase).kv =
      clearSession kv userId := by
  cases cid <;> simp [forwardMessageToAdminV2]

/-- C7: pressing the confirmation "send" button twice in immediate
succession, when the first delivery succeeds, yields exactly one delivery to
the admin chat: the first invocation performs one admin send and deletes the
session, so the second invocation finds no session, changes nothing in the
store, performs no admin send, and only answers with the expired-session
response. -/
theorem confirm_send_idempotent (kv : SessionKV) (cfg : Config)
    (userId : String) (mid : Nat) (phrase : String) (now : Nat) (s : Session)
    (hs : getSession kv userId = some s) :
    (adminSends (routeCallbackQueryV2 kv cfg userId mid "confirm:send" true true
        phrase now).effects).length = 1 ∧
      getSession (routeCallbackQueryV2 kv cfg userId mid "confirm:send" true true
        phrase now).kv userId = none ∧
      routeCallbackQueryV2
          (routeCallbackQueryV2 kv cfg userId mid "confirm:send" true true
            phrase now).kv cfg userId mid "confirm:send" true true phrase now =
        ⟨(routeCallbackQueryV2 kv cfg userId mid "confirm:send" true true
            phrase now).kv,
         [.answerCallback sessionExpiredText]⟩ := by
  have r1eq := routeCallbackQueryV2_send kv cfg userId mid true phrase now s hs
  have hclear : (routeCallbackQueryV2 kv cfg userId mid "confirm:send" true true
      phrase now).kv = clearSession kv userId := by
    rw [r1eq]
    exact forward_success_clears_session kv cfg userId s (some mid) phrase
  have hnone : getSession (routeCallbackQueryV2 kv cfg userId mid "confirm:send"
      true true phrase now).kv userId = none := by
    rw [hclear]
    exact getSession_clearSession_self kv userId
  refine ⟨?_, hnone, ?_⟩
  · rw [r1eq]
    have hpre : adminSends
        ([.answerCallback "Отправка сообщения...",
          .editUser mid (sendingMessageText s.mediaItems.length)] ++
          (forwardMessageToAdminV2 kv cfg userId s (some mid) true phrase).effects) =
        adminSends (forwardMessageToAdminV2 kv cfg userId s (some mid) true
          phrase).effects := by
      simp [adminSends]
    rw [hpre, adminSends_forward]
    rfl
  · exact routeCallbackQueryV2_expired _ cfg userId mid "confirm:send" true
      phrase now hnone

/-- Witness for C7: a store holding one ready-to-send session. -/
theorem confirm_send_idempotent_witness :
    (adminSends (routeCallbackQueryV2
        [(getSessionKey "u", { defaultSession 0 with step := "confirm" }, 3600)]
        ⟨false, "adm", none⟩ "u" 9 "confirm:send" true true "p" 5).effects).length = 1 ∧
      getSession (routeCallbackQueryV2
        [(getSessionKey "u", { defaultSession 0 with step := "confirm" }, 3600)]
        ⟨false, "adm", none⟩ "u" 9 "confirm:send" true true "p" 5).kv "u" = none ∧
      routeCallbackQueryV2
          (routeCallbackQueryV2
            [(getSessionKey "u", { defaultSession 0 with step := "confirm" }, 3600)]
            ⟨false, "adm", none⟩ "u" 9 "confirm:send" true true "p" 5).kv
          ⟨false, "adm", none⟩ "u" 9 "confirm:send" true true "p" 5 =
        ⟨(routeCallbackQueryV2
            [(getSessionKey "u", { defaultSession 0 with step := "confirm" }, 3600)]
            ⟨false, "adm", none⟩ "u" 9 "confirm:send" true true "p" 5).kv,
         [.answerCallback sessionExpiredText]⟩ :=
  confirm_send_idempotent
    [(getSessionKey "u", { defaultSession 0 with step := "confirm" }, 3600)]
    ⟨false, "adm", none⟩ "u" 9 "p" 5 { defaultSession 0 with step := "confirm" }
    (by simp [getSession, kvGet, kvGetEntry])

/-! ## Theorems: the conversation state machine (claim C1) -/

theorem strStartsWith_append (p t : String) : strStartsWith (p ++ t) p = true := by
  rw [strStartsWith, String.data_append, List.isPrefixOf_iff_prefix]
  exact List.prefix_append _ _

theorem strDrop_category (t : String) : strDrop ("category:" ++ t) 9 = t := by
  rw [strDrop, String.data_append]
  have h : ("category:".data).length = 9 := rfl
  rw [← h, List.drop_left]

theorem strDrop_topic (t : String) : strDrop ("topic:" ++ t) 6 = t := by
  rw [strDrop, String.data_append]
  have h : ("topic:".data).length = 6 := rfl
  rw [← h, List.drop_left]

theorem topic_not_category (t : String) :
    strStartsWith ("topic:" ++ t) "category:" = false := by
  have h0 : "topic:".data = 't' :: "opic:".data := rfl
  have h2 : ("topic:" ++ t).data = 't' :: ("opic:".data ++ t.data) := by
    rw [String.data_append, h0, List.cons_append]
  rw [strStartsWith, h2]
  rfl

theorem routeCallbackQueryV2_category (kv : SessionKV) (cfg : Config)
    (userId : String) (mid : Nat) (c : String) (sendOk : Bool) (phrase : String)
    (now : Nat) (s : Session) (hs : getSession kv userId = some s) :
    routeCallbackQueryV2 kv cfg userId mid ("category:" ++ c) true sendOk phrase now =
      ⟨(updateSession kv userId
          { noUpdates with
            category := some (some c)
            step := some "topic"
            flowMessageId := some (some mid) } now).1,
       [.answerCallback "", .editUser mid (categorySelectedText c)]⟩ := by
  simp [routeCallbackQueryV2, hs, strStartsWith_append, strDrop_category]

theorem routeCallbackQueryV2_topic (kv : SessionKV) (cfg : Config)
    (userId : String) (mid : Nat) (t : String) (sendOk : Bool) (phrase : String)
    (now : Nat) (s : Session) (hs : getSession kv userId = some s) :
    routeCallbackQueryV2 kv cfg userId mid ("topic:" ++ t) true sendOk phrase now =
      ⟨(updateSession kv userId
          { noUpdates with topic := some (some t), step := some "message" } now).1,
       [.answerCallback "",
        .editUser mid (topicChosenText s.category t)]⟩ := by
  simp [routeCallbackQueryV2, hs, strStartsWith_append, strDrop_topic,
    topic_not_category]

theorem routeCallbackQueryV2_cancel (kv : SessionKV) (cfg : Config)
    (userId : String) (mid : Nat) (sendOk : Bool) (phrase : String) (now : Nat)
    (s : Session) (hs : getSession kv userId = some s) :
    routeCallbackQueryV2 kv cfg userId mid "confirm:cancel" true sendOk phrase now =
      ⟨(updateSession (updateSession kv userId cancelUpdates now).1 userId
          { noUpdates with flowMessageId := some none } now).1,
       [.answerCallback "", .editUser mid "❌ Сообщение отменено.",
        .sendUser "Начнём заново. Выберите категорию вашего сообщения:"]⟩ := by
  simp [routeCallbackQueryV2, hs,
    show strStartsWith "confirm:cancel" "category:" = false from rfl,
    show strStartsWith "confirm:cancel" "topic:" = false from rfl,
    show strStartsWith "confirm:cancel" "confirm:" = true from rfl,
    show strDrop "confirm:cancel" 8 = "cancel" from rfl]

/-- C1, counterexample: the claim says category selection is accepted only in
the AwaitingCategory (`category`) step and that an event arriving outside its
step leaves the step unchanged.  Here a session in the `message`
(AwaitingContent) step receives a `category:idea` callback and its step moves
to `topic`: `routeCallbackQuery` dispatches on the data prefix without ever
consulting `session.step`. -/
theorem routeCallback_ignores_step_cex :
    ({ defaultSession 0 with step := "message" } : Session).step = "message" ∧
      (getSession (routeCallbackQueryV2
          [(getSessionKey "u", { defaultSession 0 with step := "message" }, 3600)]
          ⟨false, "adm", none⟩ "u" 3 "category:idea" true true "p" 7).kv "u").map
        Session.step = some "topic" := by
  exact ⟨rfl, rfl⟩

/-- C1, amended: callback-query routing dispatches on the `data` prefix alone
and never consults the session's step, so — for any existing session in any
step — a `category:` selection is recorded and moves the step to `topic`, a
`topic:` selection is recorded and moves the step to `message`, and a
`confirm:cancel` resets the step to `category`.  Message content is governed
by the step only for non-media-group messages: outside the `message` step
such content is rejected with guidance and no store change; a media-group
item, however, is accepted in any step and its arrival update forces the
step to `message`. -/
theorem routeCallback_dispatch_by_prefix (kv : SessionKV) (cfg : Config)
    (userId : String) (mid : Nat) (sendOk : Bool) (phrase : String) (now : Nat)
    (s : Session) (msg : TMessage) (hs : getSession kv userId = some s) :
    (∀ c : String,
      getSession (routeCallbackQueryV2 kv cfg userId mid ("category:" ++ c) true
          sendOk phrase now).kv userId =
        some (applyUpdates s
          { noUpdates with
            category := some (some c)
            step := some "topic"
            flowMessageId := some (some mid) }) ∧
      (applyUpdates s
        { noUpdates with
          category := some (some c)
          step := some "topic"
          flowMessageId := some (some mid) }).step = "topic") ∧
    (∀ t : String,
      getSession (routeCallbackQueryV2 kv cfg userId mid ("topic:" ++ t) true
          sendOk phrase now).kv userId =
        some (applyUpdates s
          { noUpdates with topic := some (some t), step := some "message" }) ∧
      (applyUpdates s
        { noUpdates with topic := some (some t), step := some "message" }).step =
        "message") ∧
    ((getSession (routeCallbackQueryV2 kv cfg userId mid "confirm:cancel" true
        sendOk phrase now).kv userId).map Session.step = some "category") ∧
    (msg.media_group_id = none → s.step ≠ "message" →
      handleMessageV2 kv userId msg true now =
        ⟨kv, [.sendUser followInstructionsText], []⟩) ∧
    (∀ gid items txt tnow, (burstArrive s gid items txt tnow).step = "message") := by
  refine ⟨?_, ?_, ?_, ?_, ?_⟩
  · intro c
    rw [routeCallbackQueryV2_category kv cfg userId mid c sendOk phrase now s hs]
    refine ⟨?_, rfl⟩
    rw [getSession_updateSession_self]
    simp [updateSession, hs]
  · intro t
    rw [routeCallbackQueryV2_topic kv cfg userId mid t sendOk phrase now s hs]
    refine ⟨?_, rfl⟩
    rw [getSession_updateSession_self]
    simp [updateSession, hs]
  · rw [routeCallbackQueryV2_cancel kv cfg userId mid sendOk phrase now s hs,
      getSession_updateSession_self, updateSession_snd,
      getSession_updateSession_self, updateSession_snd, hs]
    simp [applyUpdates, cancelUpdates, rewriteUpdates, noUpdates]
  · intro hmg hstep
    simp [handleMessageV2, hs, hmg, hstep]
  · intro gid items txt tnow
    simp [burstArrive, applyUpdates, burstUpdates]

/-- Witness for the amended C1: a session stuck in the `confirm` step still
accepts a category selection, and a non-grouped message in that step is
rejected without a store change. -/
theorem routeCallback_dispatch_by_prefix_witness :
    getSession (routeCallbackQueryV2
        [(getSessionKey "u", { defaultSession 0 with step := "confirm" }, 3600)]
        ⟨false, "adm", none⟩ "u" 3 ("category:" ++ "idea") true true "p" 7).kv "u" =
      some (applyUpdates { defaultSession 0 with step := "confirm" }
        { noUpdates with
          category := some (some "idea")
          step := some "topic"
          flowMessageId := some (some 3) }) ∧
    handleMessageV2
        [(getSessionKey "u", { defaultSession 0 with step := "confirm" }, 3600)]
        "u" ⟨some "hello", none, [], none, none, none⟩ true 7 =
      ⟨[(getSessionKey "u", { defaultSession 0 with step := "confirm" }, 3600)],
       [.sendUser followInstructionsText], []⟩ := by
  have h := routeCallback_dispatch_by_prefix
    [(getSessionKey "u", { defaultSession 0 with step := "confirm" }, 3600)]
    ⟨false, "adm", none⟩ "u" 3 true "p" 7 { defaultSession 0 with step := "confirm" }
    ⟨some "hello", none, [], none, none, none⟩ (by simp [getSession, kvGet, kvGetEntry])
  exact ⟨(h.1 "idea").1, h.2.2.2.1 rfl (by simp)⟩

/-! ## Theorems: pending-burst finalization (claim C6, first revision) -/

theorem processV1_preserves_cat_topic (kv : SessionKV) (u : String)
    (s : Session) (sentiment : Option String) (now : Nat)
    (hs : getSession kv u = some s) :
    ∃ s', getSession (processMessageForSentimentV1 kv u s sentiment now).kv u =
        some s' ∧ s'.category = s.category ∧ s'.topic = s.topic := by
  rcases sentiment with _ | v
  · refine ⟨applyUpdates s { noUpdates with step := some "confirm" }, ?_, ?_, ?_⟩
    · have hkv : (processMessageForSentimentV1 kv u s none now).kv =
          (updateSession kv u { noUpdates with step := some "confirm" } now).1 := by
        simp [processMessageForSentimentV1]
      rw [hkv, getSession_updateSession_self, updateSession_snd, hs]
      rfl
    · simp [applyUpdates, noUpdates]
    · simp [applyUpdates, noUpdates]
  · by_cases hneg : v = "NEGATIVE"
    · subst hneg
      refine ⟨applyUpdates (applyUpdates s { noUpdates with sentiment := some (some "NEGATIVE") })
        { noUpdates with step := some "sentiment_review" }, ?_, ?_, ?_⟩
      · have hkv : (processMessageForSentimentV1 kv u s (some "NEGATIVE") now).kv =
            (updateSession
              (updateSession kv u { noUpdates with sentiment := some (some "NEGATIVE") } now).1
              u { noUpdates with step := some "sentiment_review" } now).1 := by
          simp [processMessageForSentimentV1]
        rw [hkv, getSession_updateSession_self, updateSession_snd,
          getSession_updateSession_self, updateSession_snd, hs]
        rfl
      · simp [applyUpdates, noUpdates]
      · simp [applyUpdates, noUpdates]
    · refine ⟨applyUpdates (applyUpdates s { noUpdates with sentiment := some (some v) })
        { noUpdates with step := some "confirm" }, ?_, ?_, ?_⟩
      · have hkv : (processMessageForSentimentV1 kv u s (some v) now).kv =
            (updateSession
              (updateSession kv u { noUpdates with sentiment := some (some v) } now).1
              u { noUpdates with step := some "confirm" } now).1 := by
          simp [processMessageForSentimentV1, hneg]
        rw [hkv, getSession_updateSession_self, updateSession_snd,
          getSession_updateSession_self, updateSession_snd, hs]
        rfl
      · simp [applyUpdates, noUpdates]
      · simp [applyUpdates, noUpdates]

/-- C6 (first revision, lines 491-514): when the stored session has an open
media-group burst (`waitingForMediaGroup` with a non-empty `mediaItems`
collection) and a non-grouped message arrives, the handler finalizes the
burst first: the confirmation-building path receives exactly the stored
session — its collected attachments intact — its effects come first, and
only then is the session reset to a fresh `message` step with its category
and topic retained, so the burst's content is never silently dropped. -/
theorem pending_burst_finalized_first (kv : SessionKV) (userId : String)
    (msg : TMessage) (sentiment : Option String) (now : Nat) (s : Session)
    (hs : getSession kv userId = some s) (hstep : s.step = "message")
    (hmg : msg.media_group_id = none) (hw : s.waitingForMediaGroup = true)
    (hne : s.mediaItems ≠ []) :
    (handleMessageV1 kv userId msg true sentiment now).builds = [s] ∧
      (handleMessageV1 kv userId msg true sentiment now).effects =
        (processMessageForSentimentV1 kv userId s sentiment now).effects ++
          [.sendUser burstFinalizedText] ∧
      (getSession (handleMessageV1 kv userId msg true sentiment now).kv userId).map
        Session.mediaItems = some [] ∧
      (getSession (handleMessageV1 kv userId msg true sentiment now).kv userId).map
        Session.step = some "message" ∧
      (getSession (handleMessageV1 kv userId msg true sentiment now).kv userId).map
        Session.category = some s.category ∧
      (getSession (handleMessageV1 kv userId msg true sentiment now).kv userId).map
        Session.topic = some s.topic := by
  have hrun : handleMessageV1 kv userId msg true sentiment now =
      ⟨(updateSession (processMessageForSentimentV1 kv userId s sentiment now).kv
          userId resetAfterBurstUpdates now).1,
       (processMessageForSentimentV1 kv userId s sentiment now).effects ++
         [.sendUser burstFinalizedText],
       [s]⟩ := by
    simp [handleMessageV1, hs, hstep, hmg, hw, hne]
  obtain ⟨s', hget', hcat, htop⟩ :=
    processV1_preserves_cat_topic kv userId s sentiment now hs
  have hfinal : getSession (handleMessageV1 kv userId msg true sentiment now).kv
      userId = some (applyUpdates s' resetAfterBurstUpdates) := by
    rw [hrun]
    show getSession (updateSession _ userId resetAfterBurstUpdates now).1 userId = _
    rw [getSession_updateSession_self, updateSession_snd, hget']
    rfl
  refine ⟨by rw [hrun], by rw [hrun], ?_, ?_, ?_, ?_⟩ <;> rw [hfinal]
  · simp [applyUpdates, resetAfterBurstUpdates, noUpdates]
  · simp [applyUpdates, resetAfterBurstUpdates, noUpdates]
  · simp [applyUpdates, resetAfterBurstUpdates, noUpdates, hcat]
  · simp [applyUpdates, resetAfterBurstUpdates, noUpdates, htop]

/-- Witness for C6: a pending one-photo burst finalized by an arriving text
message. -/
theorem pending_burst_finalized_first_witness :
    (handleMessageV1
        [(getSessionKey "u",
          { defaultSession 0 with
            step := "message"
            waitingForMediaGroup := true
            mediaItems := [⟨.photo, "f1"⟩]
            mediaGroupId := some "g" }, 3600)]
        "u" ⟨some "hello", none, [], none, none, none⟩ true none 9).builds =
      [{ defaultSession 0 with
          step := "message"
          waitingForMediaGroup := true
          mediaItems := [⟨.photo, "f1"⟩]
          mediaGroupId := some "g" }] ∧
      (getSession (handleMessageV1
          [(getSessionKey "u",
            { defaultSession 0 with
              step := "message"
              waitingForMediaGroup := true
              mediaItems := [⟨.photo, "f1"⟩]
              mediaGroupId := some "g" }, 3600)]
          "u" ⟨some "hello", none, [], none, none, none⟩ true none 9).kv "u").map
        Session.mediaItems = some [] := by
  have h := pending_burst_finalized_first
    [(getSessionKey "u",
      { defaultSession 0 with
        step := "message"
        waitingForMediaGroup := true
        mediaItems := [⟨.photo, "f1"⟩]
        mediaGroupId := some "g" }, 3600)]
    "u" ⟨some "hello", none, [], none, none, none⟩ none 9
    { defaultSession 0 with
      step := "message"
      waitingForMediaGroup := true
      mediaItems := [⟨.photo, "f1"⟩]
      mediaGroupId := some "g" }
    (by simp [getSession, kvGet, kvGetEntry]) rfl rfl rfl (by simp)
  exact ⟨h.1, h.2.2.1⟩

/-! ## Theorems: media-group coalescing (claim C2) -/

theorem t_mono_of_succ (n : Nat) (t : Nat → Nat)
    (hmono : ∀ i, i + 1 < n → t i < t (i + 1)) :
    ∀ a b, a ≤ b → b < n → t a ≤ t b := by
  intro a b hab hbn
  induction b with
  | zero =>
    have : a = 0 := by omega
    subst this
    exact le_refl _
  | succ b ih =>
    rcases Nat.lt_or_ge a (b + 1) with hlt | hge
    · have h1 : t a ≤ t b := ih (by omega) (by omega)
      have h2 : t b < t (b + 1) := hmono b hbn
      omega
    · have : a = b + 1 := by omega
      subst this
      exact le_refl _

theorem burstSessAfter_fields (s0 : Session) (gid : String)
    (item : Nat → MediaItem) (cap : Nat → String) (t : Nat → Nat)
    (hgid : s0.mediaGroupId ≠ some gid) :
    ∀ k, 1 ≤ k →
      (burstSessAfter s0 gid item cap t k).mediaGroupId = some gid ∧
        (burstSessAfter s0 gid item cap t k).lastMediaTimestamp = some (t (k - 1)) ∧
        (burstSessAfter s0 gid item cap t k).mediaItems = (List.range k).map item := by
  intro k hk
  induction k with
  | zero => omega
  | succ k ih =>
    by_cases hk0 : k = 0
    · subst hk0
      refine ⟨rfl, rfl, ?_⟩
      show burstMergedItems s0 gid [item 0] = _
      simp [burstMergedItems, hgid, List.range_succ]
    · obtain ⟨ih1, ih2, ih3⟩ := ih (by omega)
      refine ⟨rfl, rfl, ?_⟩
      show burstMergedItems (burstSessAfter s0 gid item cap t k) gid [item k] = _
      rw [burstMergedItems, if_pos ih1, ih3, List.range_succ, List.map_append]
      rfl

theorem burstObs_le (n : Nat) (t : Nat → Nat) (i : Nat) : burstObs n t i ≤ n := by
  unfold burstObs
  calc ((Finset.range n).filter fun j => t j < t i + 1000).card
      ≤ (Finset.range n).card := Finset.card_filter_le _ _
    _ = n := Finset.card_range n

theorem burstObs_lb (n : Nat) (t : Nat → Nat) (i : Nat)
    (hmono : ∀ j, j + 1 < n → t j < t (j + 1)) (hi : i + 1 < n)
    (hwin : t (i + 1) < t i + 1000) : i + 2 ≤ burstObs n t i := by
  unfold burstObs
  have hsub : Finset.range (i + 2) ⊆
      (Finset.range n).filter fun j => t j < t i + 1000 := by
    intro j hj
    rw [Finset.mem_range] at hj
    rw [Finset.mem_filter, Finset.mem_range]
    refine ⟨by omega, ?_⟩
    rcases Nat.lt_or_ge j (i + 1) with hji | hji
    · have : t j ≤ t i := t_mono_of_succ n t hmono j i (by omega) (by omega)
      omega
    · have : j = i + 1 := by omega
      subst this
      exact hwin
  calc i + 2 = (Finset.range (i + 2)).card := (Finset.card_range _).symm
    _ ≤ _ := Finset.card_le_card hsub

theorem burstObs_last (n : Nat) (t : Nat → Nat) (hpos : 0 < n)
    (hmono : ∀ j, j + 1 < n → t j < t (j + 1)) : burstObs n t (n - 1) = n := by
  unfold burstObs
  have hall : ∀ j ∈ Finset.range n, t j < t (n - 1) + 1000 := by
    intro j hj
    rw [Finset.mem_range] at hj
    have : t j ≤ t (n - 1) := t_mono_of_succ n t hmono j (n - 1) (by omega) (by omega)
    omega
  rw [Finset.filter_true_of_mem hall, Finset.card_range]

theorem range_eq_append_last (n : Nat) (h : 0 < n) :
    List.range n = List.range (n - 1) ++ [n - 1] := by
  have hn : n = (n - 1) + 1 := by omega
  calc List.range n = List.range ((n - 1) + 1) := by rw [← hn]
    _ = List.range (n - 1) ++ [n - 1] := by rw [List.range_succ]

/-- Which rechecks of the burst pass the quiet-window test: only the last
one. -/
theorem burst_recheck_decides (s0 : Session) (gid : String)
    (item : Nat → MediaItem) (cap : Nat → String) (t : Nat → Nat) (n : Nat)
    (hpos : 0 < n) (hmono : ∀ j, j + 1 < n → t j < t (j + 1))
    (hwin : ∀ j, j + 1 < n → t (j + 1) < t j + 1000)
    (hgid : s0.mediaGroupId ≠ some gid) (i : Nat) (hi : i < n) :
    quietWindowOk (burstSessAfter s0 gid item cap t (burstObs n t i)) gid
        (t i + 1000) = decide (i = n - 1) := by
  by_cases hlast : i = n - 1
  · subst hlast
    have hobs := burstObs_last n t hpos hmono
    obtain ⟨h1, h2, _⟩ := burstSessAfter_fields s0 gid item cap t hgid
      (burstObs n t (n - 1)) (by omega)
    rw [quietWindowOk, h1, h2, hobs]
    have hle : (1000 : Nat) ≤ t (n - 1) + 1000 - t (n - 1) := by omega
    simp [hle]
  · have hi1 : i + 1 < n := by omega
    have hobs_lb := burstObs_lb n t i hmono hi1 (hwin i hi1)
    have hobs_le := burstObs_le n t i
    obtain ⟨h1, h2, _⟩ := burstSessAfter_fields s0 gid item cap t hgid
      (burstObs n t i) (by omega)
    rw [quietWindowOk, h1, h2]
    have hge : t (i + 1) ≤ t (burstObs n t i - 1) :=
      t_mono_of_succ n t hmono (i + 1) (burstObs n t i - 1) (by omega) (by omega)
    have hgt : t i < t (burstObs n t i - 1) := by
      have := hmono i hi1
      omega
    have hlt : ¬ ((1000 : Nat) ≤ t i + 1000 - t (burstObs n t i - 1)) := by omega
    simp [hlt, hlast]

/-- C2: for a burst of `n ≥ 1` media-group arrivals sharing one
`media_group_id`, with strictly increasing arrival times each within the
1000 ms quiet window of the previous one, the interleaved invocations
perform exactly one confirmation build — by the last recheck — and the
session it hands to the confirmation-building path holds exactly the `n`
collected items in arrival order. -/
theorem media_group_coalescing (s0 : Session) (gid : String)
    (item : Nat → MediaItem) (cap : Nat → String) (t : Nat → Nat) (n : Nat)
    (hpos : 0 < n)
    (hmono : ∀ i ∈ List.range (n - 1), t i < t (i + 1))
    (hwin : ∀ i ∈ List.range (n - 1), t (i + 1) < t i + 1000)
    (hgid : s0.mediaGroupId ≠ some gid) :
    burstBuildSessions s0 gid item cap t n =
        [burstSessAfter s0 gid item cap t n] ∧
      (burstSessAfter s0 gid item cap t n).mediaItems =
        (List.range n).map item := by
  have hmono' : ∀ j, j + 1 < n → t j < t (j + 1) := fun j hj =>
    hmono j (List.mem_range.mpr (by omega))
  have hwin' : ∀ j, j + 1 < n → t (j + 1) < t j + 1000 := fun j hj =>
    hwin j (List.mem_range.mpr (by omega))
  constructor
  · rw [burstBuildSessions, range_eq_append_last n hpos, List.filterMap_append]
    have hnil : (List.range (n - 1)).filterMap (fun i =>
        let s := burstSessAfter s0 gid item cap t (burstObs n t i)
        if quietWindowOk s gid (t i + 1000) then some s else none) = [] := by
      rw [List.filterMap_eq_nil_iff]
      intro i hi
      rw [List.mem_range] at hi
      have hdec := burst_recheck_decides s0 gid item cap t n hpos hmono' hwin'
        hgid i (by omega)
      have hfalse : decide (i = n - 1) = false := decide_eq_false (by omega)
      simp only [hdec, hfalse]
      rfl
    rw [hnil, List.nil_append]
    have hdec := burst_recheck_decides s0 gid item cap t n hpos hmono' hwin'
      hgid (n - 1) (by omega)
    have htrue : decide ((n : Nat) - 1 = n - 1) = true := by simp
    have hobs := burstObs_last n t hpos hmono'
    rw [hobs, htrue] at hdec
    rw [List.filterMap_cons]
    simp only [hobs, hdec]
    rfl
  · exact (burstSessAfter_fields s0 gid item cap t hgid n (by omega)).2.2

/-- Witness for C2: a two-item burst with arrivals at 0 ms and 600 ms. -/
theorem media_group_coalescing_witness :
    burstBuildSessions (defaultSession 0) "g" (fun i => ⟨.photo, toString i⟩)
        (fun _ => "") (fun i => 600 * i) 2 =
        [burstSessAfter (defaultSession 0) "g" (fun i => ⟨.photo, toString i⟩)
          (fun _ => "") (fun i => 600 * i) 2] ∧
      (burstSessAfter (defaultSession 0) "g" (fun i => ⟨.photo, toString i⟩)
          (fun _ => "") (fun i => 600 * i) 2).mediaItems =
        (List.range 2).map (fun i => ⟨.photo, toString i⟩) :=
  media_group_coalescing (defaultSession 0) "g" (fun i => ⟨.photo, toString i⟩)
    (fun _ => "") (fun i => 600 * i) 2 (by decide) (by decide) (by decide)
    (by decide)
